import Mathlib

/-!
Verification model of `RustyProxyOnly` (`src/RustyProxy/src/main.rs`), a
single-port protocol-multiplexing proxy.  Bytes are modelled as `Char`s via
their code points; every byte sequence appearing in the claims is ASCII, for
which Rust's lossy UTF-8 decoding used by `handle_client` is the identity, so
substring tests on the decoded string coincide with substring tests on the
raw bytes.  All definitions below are transcribed from the Rust source;
definitions whose doc comment says `Modelled from the spec:` or that carry a
`Spec` suffix follow the specification's words instead, for refinement
comparisons.
-/

namespace RustyProxy

/-- Boolean test that `p` is a prefix of `s` (Rust `str::starts_with`). -/
def isPref : List Char → List Char → Bool
  | [], _ => true
  | _ :: _, [] => false
  | p :: ps, x :: xs => p == x && isPref ps xs

/-- Boolean test that `pat` occurs contiguously in `s` (Rust `str::contains`). -/
def containsSub (pat : List Char) : List Char → Bool
  | [] => isPref pat []
  | x :: xs => isPref pat (x :: xs) || containsSub pat xs

/-- Protocol tags produced by the classifier in `handle_client`
(main.rs lines 73-81); the source represents them as the strings
`"websocket"`, `"ssh"`, `"http"`, `"openvpn"`. -/
inductive Proto where
  | websocket
  | ssh
  | http
  | openvpn
deriving DecidableEq

/-- The classifier of `handle_client` (main.rs lines 73-81): websocket when
both upgrade markers occur, else ssh when `"SSH-"` occurs, else http when the
data starts with `"GET"` or `"POST"`, else the `"openvpn"` default. -/
def classify (s : List Char) : Proto :=
  if containsSub ("Upgrade: websocket".data) s && containsSub ("Connection: Upgrade".data) s then
    Proto.websocket
  else if containsSub ("SSH-".data) s then Proto.ssh
  else if isPref ("GET".data) s || isPref ("POST".data) s then Proto.http
  else Proto.openvpn

/-- Rust `str::parse::<u16>()`: optional leading `+`, then one or more ASCII
digits, value at most 65535; anything else fails. -/
def parseU16 (s : String) : Option Nat :=
  let cs := match s.data with
    | '+' :: rest => rest
    | cs => cs
  if cs.isEmpty then none
  else if cs.all Char.isDigit then
    let v := cs.foldl (fun a c => a * 10 + (c.toNat - 48)) 0
    if v ≤ 65535 then some v else none
  else none

/-- Loop body of `get_port` (main.rs lines 390-396) over the arguments after
the program name: at each index, when the argument is `--port` and a next
argument exists, the port becomes that next argument parsed, defaulting to 80
on parse failure; the scan advances one index at a time. -/
def getPortAux (port : Nat) : List String → Nat
  | [] => port
  | [_] => port
  | x :: y :: rest =>
      getPortAux (if x == ("--port") then (parseU16 y).getD 80 else port) (y :: rest)

/-- Function `get_port` (main.rs lines 386-398): scan `args[1..]` with initial port 80. -/
def getPort (args : List String) : Nat :=
  getPortAux 80 args.tail

/-- Loop body of `get_status` (main.rs lines 404-410), same shape as
`getPortAux` but the value is taken verbatim. -/
def getStatusAux (status : String) : List String → String
  | [] => status
  | [_] => status
  | x :: y :: rest =>
      getStatusAux (if x == ("--status") then y else status) (y :: rest)

/-- Function `get_status` (main.rs lines 400-412): scan `args[1..]` with initial
status `@RustyManager`. -/
def getStatus (args : List String) : String :=
  getStatusAux ("@RustyManager") args.tail

/-- Configuration record `Config` (main.rs lines 15-33): `ssh_port`, `openvpn_port` and
`timeout_secs` are hardcoded by `Config::from_args`. -/
structure Config where
  port : Nat
  status : String
  sshPort : Nat
  openvpnPort : Nat
  timeoutSecs : Nat
deriving DecidableEq

/-- Constructor `Config::from_args` (main.rs lines 24-32). -/
def Config.fromArgs (args : List String) : Config :=
  { port := getPort args
    status := getStatus args
    sshPort := 22
    openvpnPort := 1194
    timeoutSecs := 1 }

/-- Backend address chosen by `handle_client` for each classification
(main.rs lines 116, 138, 155-159): every protocol except openvpn is proxied
to `0.0.0.0:<ssh_port>`; openvpn goes to `0.0.0.0:<openvpn_port>`. -/
def backendAddr (cfg : Config) : Proto → String
  | Proto.websocket => "0.0.0.0:" ++ toString cfg.sshPort
  | Proto.http => "0.0.0.0:" ++ toString cfg.sshPort
  | Proto.ssh => "0.0.0.0:" ++ toString cfg.sshPort
  | Proto.openvpn => "0.0.0.0:" ++ toString cfg.openvpnPort

/-- Client-side TCP stream state: the bytes the client has sent that the
proxy has not yet consumed.  A real read removes bytes; a peek does not. -/
structure ClientStream where
  pending : List Char
deriving DecidableEq

/-- A real `read` into a buffer of capacity `cap`: returns up to `cap` bytes
and advances the read cursor past them. -/
def readUpTo (cap : Nat) (s : ClientStream) : List Char × ClientStream :=
  (s.pending.take cap, ⟨s.pending.drop cap⟩)

/-- A `peek` with buffer capacity `cap`: returns up to `cap` bytes without
advancing the read cursor. -/
def peekUpTo (cap : Nat) (s : ClientStream) : List Char :=
  s.pending.take cap

/-- The sniffing phase of `handle_client` (main.rs lines 69-81): a real
`read` into a 4096-byte buffer, whose result is classified.  It returns the
classification together with the stream as the relay phase will find it. -/
def handleSniff (s : ClientStream) : Proto × ClientStream :=
  let r := readUpTo 4096 s
  (classify r.1, r.2)

/-- Function `peek_stream` (main.rs lines 378-384): a non-consuming peek into an
8192-byte buffer.  The source keeps this function but never calls it. -/
def peekStream (s : ClientStream) : List Char :=
  peekUpTo 8192 s

/-- The disguise status line written in the `"http"` branch of
`handle_client` (main.rs line 129): `HTTP/1.1 101 <status>\r\n\r\n`. -/
def disguiseResponse (status : String) : String :=
  "HTTP/1.1 101 " ++ status ++ "\r\n\r\n"

/-- One TCP connection attempt to the backend (main.rs lines 117-122,
139-144, 161-166): `avail n` says whether the `n`-th connection attempt
would succeed; `handle_client` makes exactly attempt 0 and on failure
returns the `ConnectionRefused` error with the given message at once. -/
def connectBackend (avail : Nat → Bool) : Except String Nat :=
  if avail 0 then Except.ok 0
  else Except.error ("Falha ao conectar ao backend")

/-- A backend that refuses the first connection attempt and accepts every
later one. -/
def failOnceBackend : Nat → Bool := fun n => decide (1 ≤ n)

/-- Modelled from the spec: the Backend Dispatcher of spec section 4.4, absent
from the source — attempt a connection; on failure sleep `delay` (initial 1s),
double it and retry, up to `retriesLeft` retries; on exhaustion a terminal
error.  It returns the successful attempt index and the list of sleeps
performed, for comparison with `connectBackend`. -/
def connectSpec (retriesLeft : Nat) (delay : Nat) (attempt : Nat)
    (avail : Nat → Bool) : Except String (Nat × List Nat) :=
  if avail attempt then Except.ok (attempt, [])
  else
    match retriesLeft with
    | 0 => Except.error ("Falha ao conectar ao backend")
    | r + 1 =>
        match connectSpec r (delay * 2) (attempt + 1) avail with
        | Except.ok (k, sleeps) => Except.ok (k, delay :: sleeps)
        | Except.error e => Except.error e

/-- One write half of a socket in the relay phase: the bytes written to it so
far and whether its write side has been shut down. -/
structure WriteHalf where
  written : List Char
  isShut : Bool
deriving DecidableEq

/-- Function `transfer_data` (main.rs lines 189-208): repeatedly read a chunk and
write it verbatim to the opposite half; a zero-byte read breaks the loop and
the function returns `Ok` without touching the write half's shutdown state.
`chunks` is the sequence of values successive reads return. -/
def transferData (w : WriteHalf) : List (List Char) → WriteHalf
  | [] => w
  | c :: cs =>
      if c.isEmpty then w
      else transferData { w with written := w.written ++ c } cs

/-- The bytes a directional relay loop forwards: the concatenation of the
chunks before the first zero-byte read. -/
def drained : List (List Char) → List Char
  | [] => []
  | c :: cs => if c.isEmpty then [] else c ++ drained cs

/-- Admission state of `start_http` (main.rs lines 44-63): `active` counts
spawned connection tasks currently holding a semaphore permit, `avail` the
semaphore's free permits.  The semaphore starts with 1000 permits and is
never closed. -/
structure AdmState where
  active : Nat
  avail : Nat
deriving DecidableEq

/-- Initial admission state: `Semaphore::new(1000)`, no task yet. -/
def admInit : AdmState := ⟨0, 1000⟩

/-- Steps of the accept loop: `acceptConn` acquires a permit (possible only
when one is available) and spawns a task owning it; `finishTask` is a task
ending, dropping its permit back into the semaphore. -/
inductive AdmStep : AdmState → AdmState → Prop where
  | acceptConn (s : AdmState) (h : 0 < s.avail) :
      AdmStep s ⟨s.active + 1, s.avail - 1⟩
  | finishTask (s : AdmState) (h : 0 < s.active) :
      AdmStep s ⟨s.active - 1, s.avail + 1⟩

/-- States the accept loop can reach from startup. -/
inductive AdmReachable : AdmState → Prop where
  | init : AdmReachable admInit
  | step {s t : AdmState} : AdmReachable s → AdmStep s t → AdmReachable t

/-- Reduction of a machine word modulo 2^32. -/
def w32 (n : Nat) : Nat := n % 4294967296

/-- Left rotation of a 32-bit word by `b` bits. -/
def rotl (b n : Nat) : Nat :=
  ((n <<< b) % 4294967296) ||| (n >>> (32 - b))

/-- Big-endian byte decomposition of `n` into `k` bytes. -/
def beBytes (k n : Nat) : List Nat :=
  (List.range k).map (fun i => n / 256 ^ (k - 1 - i) % 256)

/-- SHA-1 padding: append `0x80`, zero bytes up to 56 mod 64, then the
bit length as 8 big-endian bytes. -/
def sha1Pad (msg : List Nat) : List Nat :=
  let padZeros := (119 - msg.length % 64) % 64
  msg ++ 128 :: (List.replicate padZeros 0 ++ beBytes 8 (msg.length * 8))

/-- Group bytes into 32-bit big-endian words. -/
def bytesToWords : List Nat → List Nat
  | a :: b :: c :: d :: rest => (((a * 256 + b) * 256 + c) * 256 + d) :: bytesToWords rest
  | _ => []

/-- SHA-1 message schedule: extend the 16 block words to 80. -/
def sha1Extend (ws : List Nat) : List Nat :=
  (List.range' 16 64).foldl
    (fun acc i =>
      acc ++ [rotl 1 ((acc.getD (i - 3) 0 ^^^ acc.getD (i - 8) 0)
        ^^^ (acc.getD (i - 14) 0 ^^^ acc.getD (i - 16) 0))])
    ws

/-- SHA-1 round function selected by the round index. -/
def sha1F (t b c d : Nat) : Nat :=
  if t < 20 then (b &&& c) ||| ((4294967295 ^^^ b) &&& d)
  else if t < 40 then (b ^^^ c) ^^^ d
  else if t < 60 then ((b &&& c) ||| (b &&& d)) ||| (c &&& d)
  else (b ^^^ c) ^^^ d

/-- SHA-1 round constants. -/
def sha1K (t : Nat) : Nat :=
  if t < 20 then 1518500249
  else if t < 40 then 1859775393
  else if t < 60 then 2400959708
  else 3395469782

/-- The five SHA-1 working registers. -/
structure Sha1State where
  a : Nat
  b : Nat
  c : Nat
  d : Nat
  e : Nat
deriving DecidableEq

/-- One SHA-1 round with schedule `ws` at round index `t`. -/
def sha1Round (ws : List Nat) (st : Sha1State) (t : Nat) : Sha1State :=
  let temp := w32 (rotl 5 st.a + sha1F t st.b st.c st.d + st.e + sha1K t + ws.getD t 0)
  ⟨temp, st.a, rotl 30 st.b, st.c, st.d⟩

/-- SHA-1 compression of one 64-byte block. -/
def sha1Compress (h : Sha1State) (block : List Nat) : Sha1State :=
  let ws := sha1Extend (bytesToWords block)
  let st := (List.range 80).foldl (sha1Round ws) h
  ⟨w32 (h.a + st.a), w32 (h.b + st.b), w32 (h.c + st.c), w32 (h.d + st.d), w32 (h.e + st.e)⟩

/-- Split a byte list into 64-byte blocks; the fuel bounds the number of
blocks and any fuel at least the list's length is enough. -/
def toBlocksAux : Nat → List Nat → List (List Nat)
  | 0, _ => []
  | _, [] => []
  | fuel + 1, x :: xs => (x :: xs).take 64 :: toBlocksAux fuel ((x :: xs).drop 64)

/-- Split a byte list into 64-byte blocks. -/
def toBlocks (l : List Nat) : List (List Nat) :=
  toBlocksAux l.length l

/-- SHA-1 digest (20 bytes) of a byte list, as in RFC 3174; this is the
function the `sha1` crate used at main.rs lines 100-102 computes. -/
def sha1 (msg : List Nat) : List Nat :=
  let st := (toBlocks (sha1Pad msg)).foldl sha1Compress
    ⟨1732584193, 4023233417, 2562383102, 271733878, 3285377520⟩
  beBytes 4 st.a ++ (beBytes 4 st.b ++ (beBytes 4 st.c ++ (beBytes 4 st.d ++ beBytes 4 st.e)))

/-- The standard base64 alphabet. -/
def b64Chars : List Char :=
  "ABCDEFGHIJKLMNOPQRSTUVWXYZabcdefghijklmnopqrstuvwxyz0123456789+/".data

/-- Character of the standard base64 alphabet at index `i`. -/
def b64Ch (i : Nat) : Char := b64Chars.getD i 'A'

/-- Standard padded base64 encoding (the `general_purpose::STANDARD` engine
used at main.rs line 103). -/
def base64Encode : List Nat → List Char
  | [] => []
  | [a] => [b64Ch (a / 4), b64Ch (a % 4 * 16), '=', '=']
  | [a, b] => [b64Ch (a / 4), b64Ch (a % 4 * 16 + b / 16), b64Ch (b % 16 * 4), '=']
  | a :: b :: c :: rest =>
      b64Ch (a / 4) :: b64Ch (a % 4 * 16 + b / 16) :: b64Ch (b % 16 * 4 + c / 64)
        :: b64Ch (c % 64) :: base64Encode rest

/-- UTF-8 bytes of a string; all strings involved in the handshake are
ASCII, where the bytes are the code points. -/
def strBytes (s : String) : List Nat := s.data.map Char.toNat

/-- The fixed RFC 6455 GUID (main.rs line 97). -/
def wsMagic : String := "258EAFA5-E914-47DA-95CA-C5AB0DC85B11"

/-- The WebSocket accept key of `handle_client` (main.rs lines 97-103):
base64 of the SHA-1 of the client key concatenated with the GUID. -/
def acceptKey (clientKey : String) : String :=
  ⟨base64Encode (sha1 (strBytes (clientKey ++ wsMagic)))⟩

/-- The 101 Switching Protocols response of the websocket branch
(main.rs lines 105-111), byte-exact: Rust's line-continuation backslashes
strip the leading indentation of the continued lines. -/
def wsHandshakeResponse (clientKey : String) : String :=
  "HTTP/1.1 101 Switching Protocols\r\nUpgrade: websocket\r\nConnection: Upgrade\r\nSec-WebSocket-Accept: "
    ++ acceptKey clientKey ++ "\r\n\r\n"

/-- All payloads `handle_client` writes to the client during the handshake
phase, per classification (main.rs lines 105-136, 154-175): the websocket
branch writes the upgrade response, the http branch writes the single
disguise status line, and the ssh/openvpn branch writes nothing. -/
def handshakeWrites (status clientKey : String) : Proto → List String
  | Proto.websocket => [wsHandshakeResponse clientKey]
  | Proto.http => [disguiseResponse status]
  | Proto.ssh => []
  | Proto.openvpn => []

/-- Modelled from the claim for refinement: the value of `get_port` as C10
words it — the last `--port` occurrence in `args[1..]` that is followed by a
value.  Scans the tail of the argument list. -/
def lastPortVal : List String → Option String
  | [] => none
  | [_] => none
  | x :: y :: rest =>
      match lastPortVal (y :: rest) with
      | some v => some v
      | none => if x == ("--port") then some y else none

/-- A prefix is in particular a contiguous substring. -/
theorem containsSub_of_isPref {p s : List Char} (h : isPref p s = true) :
    containsSub p s = true := by
  cases s with
  | nil => simpa [containsSub] using h
  | cons x xs => simp [containsSub, h]

/-- Generalisation of C10 over the running value of the loop variable:
after scanning `l`, the port is the parse of the value following the last
`--port` that has one, and the incoming value otherwise. -/
theorem getPortAux_last (l : List String) : ∀ p : Nat,
    getPortAux p l =
      match lastPortVal l with
      | some v => (parseU16 v).getD 80
      | none => p := by
  induction l with
  | nil => intro p; rfl
  | cons x xs ih =>
    intro p
    cases xs with
    | nil => rfl
    | cons y rest =>
      show getPortAux (if x == ("--port") then (parseU16 y).getD 80 else p) (y :: rest) = _
      rw [ih]
      show _ = (match (match lastPortVal (y :: rest) with
        | some v => some v
        | none => if x == ("--port") then some y else none) with
        | some v => (parseU16 v).getD 80
        | none => p)
      cases h : lastPortVal (y :: rest) with
      | some v => simp
      | none =>
        cases hx : x == ("--port") with
        | true => simp [hx]
        | false => simp [hx]

/-- C10 — `get_port` depends only on the last `--port` occurrence that is
followed by a value: it returns that value parsed as u16, 80 when the parse
fails, and 80 when no `--port` with a following value is present. -/
theorem claim10_get_port_last_occurrence (args : List String) :
    getPort args =
      match lastPortVal args.tail with
      | some v => (parseU16 v).getD 80
      | none => 80 :=
  getPortAux_last args.tail 80

set_option maxRecDepth 8000 in
/-- C9 — the WebSocket accept key is base64 of the SHA-1 of the client key
concatenated with the RFC 6455 GUID, and on the sample key
`dGhlIHNhbXBsZSBub25jZQ==` it computes `s3pPLMBiTxaQ9kYGzzhZRbK+xOo=`,
returned inside the 101 Switching Protocols response. -/
theorem claim9_accept_key_sample :
    acceptKey ("dGhlIHNhbXBsZSBub25jZQ==") = "s3pPLMBiTxaQ9kYGzzhZRbK+xOo=" ∧
    wsHandshakeResponse ("dGhlIHNhbXBsZSBub25jZQ==") =
      "HTTP/1.1 101 Switching Protocols\r\nUpgrade: websocket\r\nConnection: Upgrade\r\nSec-WebSocket-Accept: s3pPLMBiTxaQ9kYGzzhZRbK+xOo=\r\n\r\n" := by
  constructor
  · decide
  · decide

/-- The client stream of end-to-end scenario 1: an SSH banner. -/
def sshBanner : ClientStream := ⟨("SSH-2.0-OpenSSH_9.0\r\n").data⟩

/-- C1 — evaluation of the sniffing phase at the SSH banner: the unused
`peek_stream` would return the banner without consuming it, but the
classification bytes are obtained by a real `read` (main.rs line 70) that
consumes them, so the stream the relay phase receives is empty and the
subsequent real read returns no bytes: the banner is not a prefix of what a
later read sees, and those client bytes are lost before the relay phase. -/
theorem claim1_sniff_consumes_banner :
    peekStream sshBanner = ("SSH-2.0-OpenSSH_9.0\r\n").data ∧
    handleSniff sshBanner = (Proto.ssh, ⟨[]⟩) ∧
    (readUpTo 4096 (handleSniff sshBanner).2).1 = [] := by
  refine ⟨by decide, by decide, by decide⟩

/-- C2 — counterexample: in the only branch that performs the disguise
handshake (classification `http`), the proxy writes exactly one payload,
the literal `HTTP/1.1 101 <status>\r\n\r\n` line; it does not write two
status lines, and no `HTTP/1.1 200` line is ever written. -/
theorem claim2_counterexample :
    handshakeWrites ("@RustyManager") ("") Proto.http
      = ["HTTP/1.1 101 @RustyManager\r\n\r\n"] ∧
    (handshakeWrites ("@RustyManager") ("") Proto.http).length ≠ 2 := by
  refine ⟨by decide, by decide⟩

/-- C2 (amended) — for every connection that receives the disguise
handshake, the proxy writes exactly one literal status line
`HTTP/1.1 101 <status>\r\n\r\n`, byte-exact with no headers and the
configured status text verbatim, and no write starts with `HTTP/1.1 200`. -/
theorem claim2_one_disguise_line (status clientKey : String) :
    handshakeWrites status clientKey Proto.http = [disguiseResponse status] ∧
    disguiseResponse status = ("HTTP/1.1 101 ") ++ status ++ "\r\n\r\n" ∧
    isPref ("HTTP/1.1 200".data) (disguiseResponse status).data = false := by
  refine ⟨rfl, rfl, rfl⟩

/-- The first bytes of a TLS handshake record: `0x16 0x03 0x01`. -/
def tlsHello : List Char := [Char.ofNat 22, Char.ofNat 3, Char.ofNat 1]

/-- C3 — counterexample: the classifier has no TLS rule (its codomain
`Proto`, transcribed from the source, has no TLS tag at all); the bytes
`0x16 0x03 0x01` fall through every branch to the `openvpn` default, the
same result as arbitrary unrecognised bytes. -/
theorem claim3_counterexample :
    classify tlsHello = Proto.openvpn ∧ classify tlsHello = classify [Char.ofNat 0] := by
  refine ⟨by decide, by decide⟩

/-- C3 (amended) — there is no TLS rule: every peeked sequence whose first
two bytes are `0x16 0x03` and which matches neither the websocket marker
pair nor the `SSH-` substring rule is classified `openvpn` (the default),
not a TLS result. -/
theorem claim3_tls_bytes_fall_through (s : List Char)
    (h1 : isPref ([Char.ofNat 22, Char.ofNat 3]) s = true)
    (h2 : ¬(containsSub ("Upgrade: websocket".data) s = true ∧
            containsSub ("Connection: Upgrade".data) s = true))
    (h3 : containsSub ("SSH-".data) s = false) :
    classify s = Proto.openvpn := by
  cases s with
  | nil => simp [isPref] at h1
  | cons x xs =>
    cases xs with
    | nil => simp [isPref] at h1
    | cons y ys =>
      simp only [isPref, Bool.and_eq_true, beq_iff_eq] at h1
      obtain ⟨hx, hy, -⟩ := h1
      subst hx; subst hy
      have hws : ¬(containsSub ("Upgrade: websocket".data)
          (Char.ofNat 22 :: Char.ofNat 3 :: ys) = true ∧
          containsSub ("Connection: Upgrade".data)
          (Char.ofNat 22 :: Char.ofNat 3 :: ys) = true) := h2
      simp only [classify, h3, Bool.and_eq_true]
      rw [if_neg hws]
      simp [isPref]

/-- C3 (witness) — the two-byte TLS record prefix alone is classified
`openvpn`. -/
theorem claim3_witness :
    classify [Char.ofNat 22, Char.ofNat 3] = Proto.openvpn :=
  claim3_tls_bytes_fall_through [Char.ofNat 22, Char.ofNat 3]
    (by decide) (by decide) (by decide)

/-- A sequence that begins with `SSH-` but also contains both websocket
markers, so the websocket branch fires first. -/
def sshWsTrick : List Char := ("SSH-Upgrade: websocketConnection: Upgrade").data

/-- C4 — counterexample: a peeked sequence beginning with the ASCII prefix
`SSH-` is not always classified `ssh`: when it also contains both websocket
markers the first branch classifies it `websocket`. -/
theorem claim4_counterexample :
    isPref ("SSH-".data) sshWsTrick = true ∧
    classify sshWsTrick = Proto.websocket := by
  refine ⟨by decide, by decide⟩

/-- C4 (amended) — every peeked sequence that begins with `SSH-` and does
not contain both websocket markers is classified `ssh`, and the dispatcher
maps `ssh` to the configured SSH backend address `0.0.0.0:<ssh_port>`. -/
theorem claim4_ssh_prefix (s : List Char) (cfg : Config)
    (h0 : isPref ("SSH-".data) s = true)
    (h1 : ¬(containsSub ("Upgrade: websocket".data) s = true ∧
            containsSub ("Connection: Upgrade".data) s = true)) :
    classify s = Proto.ssh ∧
    backendAddr cfg (classify s) = "0.0.0.0:" ++ toString cfg.sshPort := by
  have hssh : containsSub ("SSH-".data) s = true :=
    containsSub_of_isPref h0
  have hcl : classify s = Proto.ssh := by
    simp only [classify, Bool.and_eq_true]
    rw [if_neg h1, if_pos hssh]
  exact ⟨hcl, by rw [hcl]; rfl⟩

/-- C4 (witness) — the SSH banner of end-to-end scenario 1 is classified
`ssh` and dispatched to `0.0.0.0:22` under the arg-less configuration. -/
theorem claim4_witness :
    classify (("SSH-2.0-OpenSSH_9.0\r\n").data) = Proto.ssh ∧
    backendAddr (Config.fromArgs []) (classify (("SSH-2.0-OpenSSH_9.0\r\n").data))
      = "0.0.0.0:" ++ toString (Config.fromArgs []).sshPort :=
  claim4_ssh_prefix (("SSH-2.0-OpenSSH_9.0\r\n").data) (Config.fromArgs [])
    (by decide) (by decide)

/-- C5 — counterexample: when the initial read observes no bytes the
classifier falls through to `openvpn`, not to `ssh`, and nothing about the
fallback is configurable. -/
theorem claim5_counterexample :
    classify [] = Proto.openvpn ∧ classify [] ≠ Proto.ssh := by
  refine ⟨by decide, by decide⟩

/-- C5 (amended) — empty peeked input is classified with the hardcoded
fallback `openvpn` and dispatched to the openvpn backend `0.0.0.0:1194`
rather than failing the connection; no configuration value affects this. -/
theorem claim5_empty_falls_back_openvpn (args : List String) :
    classify [] = Proto.openvpn ∧
    backendAddr (Config.fromArgs args) (classify []) = "0.0.0.0:1194" := by
  refine ⟨by decide, ?_⟩
  have h0 : classify ([] : List Char) = Proto.openvpn := by decide
  rw [h0]
  show ("0.0.0.0:" : String) ++ toString (1194 : Nat) = "0.0.0.0:1194"
  exact rfl

/-- C6 — counterexample: against a backend that refuses the first attempt
and accepts every later one, the dispatcher of the source returns a terminal
error at once, whereas the backoff dispatcher the claim describes would
succeed on attempt 1 after a single 1-second sleep. -/
theorem claim6_counterexample :
    failOnceBackend 0 = false ∧ failOnceBackend 1 = true ∧
    connectBackend failOnceBackend = Except.error ("Falha ao conectar ao backend") ∧
    connectSpec 5 1 0 failOnceBackend = Except.ok (1, [1]) := by
  refine ⟨rfl, by decide, rfl, rfl⟩

/-- C6 (amended) — the dispatcher makes exactly one connection attempt: its
result depends only on attempt 0 (no retry, no sleep, no backoff); a
successful first attempt returns the connection immediately and a failed
first attempt returns the terminal connection-refused error immediately. -/
theorem claim6_single_attempt (a b : Nat → Bool) (h : a 0 = b 0) :
    connectBackend a = connectBackend b ∧
    (a 0 = true → connectBackend a = Except.ok 0) ∧
    (a 0 = false → connectBackend a = Except.error ("Falha ao conectar ao backend")) := by
  refine ⟨by simp only [connectBackend, h], ?_, ?_⟩
  · intro h0; simp [connectBackend, h0]
  · intro h0; simp [connectBackend, h0]

/-- C6 (witness) — the fail-once backend and the always-failing backend agree
on attempt 0, so the dispatcher cannot tell them apart. -/
theorem claim6_witness :
    connectBackend failOnceBackend = connectBackend (fun _ => false) ∧
    (failOnceBackend 0 = true → connectBackend failOnceBackend = Except.ok 0) ∧
    (failOnceBackend 0 = false →
      connectBackend failOnceBackend = Except.error ("Falha ao conectar ao backend")) :=
  claim6_single_attempt failOnceBackend (fun _ => false) (by decide)

/-- C7 — counterexample: a directional relay run that forwards one chunk and
then reads zero bytes ends with the write half's shutdown flag still
`false`: the loop performs no half-close on end-of-stream. -/
theorem claim7_counterexample :
    transferData ⟨[], false⟩ [("ab").data, []] = ⟨("ab").data, false⟩ := by
  decide

/-- C7 (amended) — each directional relay loop treats a zero-byte read as
clean end-of-stream, forwards verbatim and in order exactly the bytes read
before it, and never changes the write half's shutdown state: no half-close
is performed on end-of-stream. -/
theorem claim7_no_half_close (chunks : List (List Char)) (w : WriteHalf) :
    transferData w chunks = ⟨w.written ++ drained chunks, w.isShut⟩ := by
  induction chunks generalizing w with
  | nil => simp [transferData, drained]
  | cons c cs ih =>
    cases hc : c.isEmpty with
    | true => simp [transferData, drained, hc]
    | false => simp [transferData, drained, hc, ih, List.append_assoc]

/-- Every reachable admission state splits the 1000 permits between active
tasks and the semaphore. -/
theorem admReachable_sum {s : AdmState} (h : AdmReachable s) :
    s.active + s.avail = 1000 := by
  induction h with
  | init => rfl
  | step _ hstep ih =>
    cases hstep with
    | acceptConn hpos =>
      show _ + 1 + (_ - 1) = 1000
      omega
    | finishTask hpos =>
      show _ - 1 + (_ + 1) = 1000
      omega

/-- C8 — in every reachable state of the accept loop at most 1000 connection
tasks hold permits, and when all 1000 are held the only possible step is a
task finishing (releasing its permit): the 1001st accept can proceed only
after a release. -/
theorem claim8_admission_bound (s : AdmState) (h : AdmReachable s) :
    s.active ≤ 1000 ∧
    ∀ t, AdmStep s t → s.active = 1000 → t.active = s.active - 1 := by
  have hsum := admReachable_sum h
  refine ⟨by omega, ?_⟩
  intro t hstep hfull
  cases hstep with
  | acceptConn hpos => exfalso; omega
  | finishTask hpos => rfl

/-- C8 (witness) — the admission bound evaluated at the initial state. -/
theorem claim8_witness :
    admInit.active ≤ 1000 ∧
    ∀ t, AdmStep admInit t → admInit.active = 1000 → t.active = admInit.active - 1 :=
  claim8_admission_bound admInit AdmReachable.init

end RustyProxy
